import Mathlib

/-!
Verification of the particle-simulation engine of the double-slit simulator
(`src/components/SimulationCanvas.tsx`, `src/App.tsx`, `src/types.ts`).

The TypeScript code is shallowly embedded: JavaScript numbers are modelled as
real numbers, `Math.random()` draws are modelled as an explicit stream
`rnd : ℕ → ℝ` consumed at an explicit cursor, and the mutable particle array
is modelled as a `List Particle` threaded through the per-frame update
functions.  The reverse-index iteration with in-place `splice` of
`updateParticles` is reproduced index-for-index, including the out-of-bounds
access (a `TypeError` in JavaScript) that occurs when the loop index runs past
the shrunk array; that failure is modelled as the `none` result.
-/

namespace DuplaFenda

noncomputable section

/-! ## Constants from SimulationCanvas.tsx -/

def CANVAS_WIDTH : ℝ := 800
def CANVAS_HEIGHT : ℝ := 400
def SOURCE_X : ℝ := 50
def SLIT_X : ℝ := 250
def SCREEN_X : ℝ := 750
def L : ℝ := SCREEN_X - SLIT_X

/-! ## Data model from types.ts -/

structure SimulationConfig where
  wavelength : ℝ
  slitDistance : ℝ
  observerActive : Bool
  emissionRate : ℝ
  showWaves : Bool

inductive Slit where
  | top
  | bottom
deriving DecidableEq

inductive Phase where
  | sourceToSlit
  | slitToScreen
  | landed
deriving DecidableEq

structure Particle where
  id : ℕ
  x : ℝ
  y : ℝ
  vx : ℝ
  vy : ℝ
  targetY : ℝ
  color : String
  phase : Phase
  originSlit : Option Slit
  twinId : Option ℕ

/-! ## Density model: getProbabilityAtY (SimulationCanvas.tsx lines 121-147) -/

def getProbabilityAtY (y slitDist lambda : ℝ) (observer : Bool) : ℝ :=
  let relativeY := y - CANVAS_HEIGHT / 2
  let sigma : ℝ := 80
  let envelope := Real.exp (-(relativeY * relativeY) / (2 * sigma * sigma))
  if observer then
    let topPeak := Real.exp (-(relativeY - slitDist / 2) ^ 2 / 1000)
    let botPeak := Real.exp (-(relativeY + slitDist / 2) ^ 2 / 1000)
    (topPeak + botPeak) * envelope
  else
    let phase := (Real.pi * slitDist * relativeY) / (lambda * L * 0.05)
    (Real.cos phase) ^ 2 * envelope

/-! ## Target sampler: generateTargetY (SimulationCanvas.tsx lines 163-181)

The do-while loop runs the body up to `maxIter = 100` times; each iteration
consumes two random draws (the candidate `y` and the acceptance draw), the
fallback consumes one more.  `genGo fuel k` is the loop with `fuel` remaining
iterations and the random cursor at `k`; it returns the sampled value together
with the advanced cursor. -/

def genGo (cfg : SimulationConfig) (rnd : ℕ → ℝ) : ℕ → ℕ → ℝ × ℕ
  | 0, k => (CANVAS_HEIGHT / 2 + (rnd k - 0.5) * 50, k + 1)
  | fuel + 1, k =>
    let y := rnd k * CANVAS_HEIGHT
    let prob := getProbabilityAtY y cfg.slitDistance cfg.wavelength cfg.observerActive
    if rnd (k + 1) < prob then (y, k + 2) else genGo cfg rnd fuel (k + 2)

def generateTargetY (cfg : SimulationConfig) (rnd : ℕ → ℝ) (k : ℕ) : ℝ × ℕ :=
  genGo cfg rnd 100 k

/-! ## Kinematics stepper: updateParticles (SimulationCanvas.tsx lines 308-367)

`moveParticle` is the in-place mutation applied to the particle at the current
index (position advance, slit transition with snap and re-aim).  `runLoop`
is the reverse-index for-loop: `runLoop cfg (i+1) ps evs` processes index `i`
of `ps` with the landing events delivered so far in `evs`.  A landing splices
the particle out and, when a twin id is present and found, splices the twin
out of the already-shrunk array, exactly as the source does.  Reading an index
past the end of the shrunk array (`particles[i]` being `undefined`, a
`TypeError` on `p.phase` in JavaScript) yields `none`. -/

def slitSnapY (cfg : SimulationConfig) : Slit → ℝ
  | Slit.top => CANVAS_HEIGHT / 2 - cfg.slitDistance / 2
  | Slit.bottom => CANVAS_HEIGHT / 2 + cfg.slitDistance / 2

def moveParticle (cfg : SimulationConfig) (p : Particle) : Particle :=
  match p.phase with
  | Phase.sourceToSlit =>
    if p.x + p.vx ≥ SLIT_X then
      let ysnap :=
        match p.originSlit with
        | some s => slitSnapY cfg s
        | none => p.y + p.vy
      { p with
        x := p.x + p.vx
        y := ysnap
        phase := Phase.slitToScreen
        vy := (p.targetY - ysnap) / ((SCREEN_X - SLIT_X) / p.vx) }
    else
      { p with x := p.x + p.vx, y := p.y + p.vy }
  | Phase.slitToScreen => { p with x := p.x + p.vx, y := p.y + p.vy }
  | Phase.landed => p

/-- `particles.findIndex(part => part.id === t)`, as an `Option`. -/
def findTwinIdx (t : ℕ) : List Particle → Option ℕ
  | [] => none
  | q :: qs => if q.id = t then some 0 else (findTwinIdx t qs).map (· + 1)

/-- The twin splice after a landing: `splice(twinIndex, 1)` when the landed
particle carries a twin id that is still present. -/
def removeTwin (ps : List Particle) : Option ℕ → List Particle
  | none => ps
  | some t =>
    match findTwinIdx t ps with
    | none => ps
    | some j => ps.eraseIdx j

def runLoop (cfg : SimulationConfig) :
    ℕ → List Particle → List ℝ → List ℝ × Option (List Particle)
  | 0, ps, evs => (evs, some ps)
  | i + 1, ps, evs =>
    match ps[i]? with
    | none => (evs, none)
    | some p =>
      match p.phase with
      | Phase.landed => runLoop cfg i ps evs
      | Phase.sourceToSlit => runLoop cfg i (ps.set i (moveParticle cfg p)) evs
      | Phase.slitToScreen =>
        let p1 := moveParticle cfg p
        if p1.x ≥ SCREEN_X then
          runLoop cfg i (removeTwin (ps.eraseIdx i) p.twinId)
            (if cfg.observerActive = false then
              (if p.id % 2 = 0 then evs ++ [p1.y] else evs)
            else evs ++ [p1.y])
        else runLoop cfg i (ps.set i p1) evs

def updateParticles (cfg : SimulationConfig) (ps : List Particle) :
    List ℝ × Option (List Particle) :=
  runLoop cfg ps.length ps []

/-- Iterated frames of `updateParticles` (no emission), accumulating the
landing events delivered to the sink; `none` when a frame threw. -/
def runUpdates (cfg : SimulationConfig) : ℕ → List Particle → List ℝ × Option (List Particle)
  | 0, ps => ([], some ps)
  | n + 1, ps =>
    match updateParticles cfg ps with
    | (evs, none) => (evs, none)
    | (evs, some ps1) =>
      match runUpdates cfg n ps1 with
      | (evs2, r) => (evs ++ evs2, r)

/-! ## Emission policy: spawnParticle (SimulationCanvas.tsx lines 200-286)

Returns the particles pushed this call, the advanced random cursor and the
advanced id counter.  In observed mode the slit-choice draw happens before the
sampler call; in unobserved mode the sampler is called once per twin, in
object-literal order (top first). -/

def spawnParticle (isRunning : Bool) (cfg : SimulationConfig)
    (rnd : ℕ → ℝ) (k idCounter : ℕ) : List Particle × ℕ × ℕ :=
  if !isRunning then ([], k, idCounter)
  else
    let particleColor := if cfg.observerActive then "#ef4444" else "#22d3ee"
    if cfg.observerActive then
      let originSlit := if rnd k > 0.5 then Slit.top else Slit.bottom
      let slitY := CANVAS_HEIGHT / 2 +
        (if originSlit = Slit.top then -cfg.slitDistance / 2 else cfg.slitDistance / 2)
      let dx := SLIT_X - SOURCE_X
      let dy := slitY - CANVAS_HEIGHT / 2
      let timeToSlit := dx / 4
      let vy := dy / timeToSlit
      let r1 := generateTargetY cfg rnd (k + 1)
      ([{ id := idCounter, x := SOURCE_X, y := CANVAS_HEIGHT / 2, vx := 4, vy := vy,
          targetY := r1.1, color := particleColor, phase := Phase.sourceToSlit,
          originSlit := some originSlit, twinId := none }], r1.2, idCounter + 1)
    else
      let baseId := idCounter
      let dx := SLIT_X - SOURCE_X
      let timeToSlit := dx / 4
      let topSlitY := CANVAS_HEIGHT / 2 - cfg.slitDistance / 2
      let bottomSlitY := CANVAS_HEIGHT / 2 + cfg.slitDistance / 2
      let topVy := (topSlitY - CANVAS_HEIGHT / 2) / timeToSlit
      let bottomVy := (bottomSlitY - CANVAS_HEIGHT / 2) / timeToSlit
      let r1 := generateTargetY cfg rnd k
      let r2 := generateTargetY cfg rnd r1.2
      ([{ id := baseId, x := SOURCE_X, y := CANVAS_HEIGHT / 2, vx := 4, vy := topVy,
          targetY := r1.1, color := particleColor, phase := Phase.sourceToSlit,
          originSlit := some Slit.top, twinId := some (baseId + 1) },
        { id := baseId + 1, x := SOURCE_X, y := CANVAS_HEIGHT / 2, vx := 4, vy := bottomVy,
          targetY := r2.1, color := particleColor, phase := Phase.sourceToSlit,
          originSlit := some Slit.bottom, twinId := some baseId }],
       r2.2, idCounter + 2)

/-! ## Frame driver: the `loop` closure (SimulationCanvas.tsx lines 508-531) -/

structure EngineState where
  lastSpawnTime : ℝ
  particles : List Particle
  idCounter : ℕ
  cursor : ℕ

/-- The spawn gate at the top of `loop`: when the elapsed time exceeds
`1000 / (emissionRate * 60)` it calls `spawnParticle` (which itself bails out
when not running) and unconditionally resets `lastSpawnTime`. -/
def emissionGate (cfg : SimulationConfig) (running : Bool) (rnd : ℕ → ℝ)
    (timestamp : ℝ) (s : EngineState) : EngineState :=
  if timestamp - s.lastSpawnTime > 1000 / (cfg.emissionRate * 60) then
    { lastSpawnTime := timestamp
      particles := s.particles ++ (spawnParticle running cfg rnd s.cursor s.idCounter).1
      cursor := (spawnParticle running cfg rnd s.cursor s.idCounter).2.1
      idCounter := (spawnParticle running cfg rnd s.cursor s.idCounter).2.2 }
  else s

/-- One animation frame: spawn gate, then `updateParticles` (drawing is
outside the model).  `none` when the update loop threw. -/
def loopTick (cfg : SimulationConfig) (running : Bool) (rnd : ℕ → ℝ)
    (timestamp : ℝ) (s : EngineState) : List ℝ × Option EngineState :=
  match updateParticles cfg (emissionGate cfg running rnd timestamp s).particles with
  | (evs, some ps2) => (evs, some { emissionGate cfg running rnd timestamp s with particles := ps2 })
  | (evs, none) => (evs, none)

/-! ## Histogram sink: App.tsx lines 9-48 -/

def SCREEN_HEIGHT : ℝ := 400
def BIN_SIZE : ℝ := 5
def NUM_BINS : ℝ := SCREEN_HEIGHT / BIN_SIZE

/-- `handleParticleLand`: bin the landing ordinate, incrementing the bin only
when the index passes the range check. -/
def handleParticleLand (hist : List ℕ) (y : ℝ) : List ℕ :=
  if 0 ≤ ⌊y / BIN_SIZE⌋ ∧ ((⌊y / BIN_SIZE⌋ : ℤ) : ℝ) < NUM_BINS then
    hist.set (⌊y / BIN_SIZE⌋).toNat (hist.getD (⌊y / BIN_SIZE⌋).toNat 0 + 1)
  else hist

/-! ## Concrete instances used by the counterexample runs -/

/-- The default configuration of App.tsx. -/
def cfg0 : SimulationConfig :=
  { wavelength := 500, slitDistance := 80, observerActive := false,
    emissionRate := 5, showWaves := true }

/-- A constant random stream: every draw is 1/2. -/
def rndHalf : ℕ → ℝ := fun _ => 1 / 2

/-- The twin pair created by the first unobserved emission under `cfg0` with
the constant draw stream 1/2 (both rejection samples accept `y = 200`). -/
def pTop0 : Particle :=
  ⟨0, 50, 200, 4, -(4 / 5), 200, "#22d3ee", Phase.sourceToSlit, some Slit.top, some 1⟩

def pBot0 : Particle :=
  ⟨1, 50, 200, 4, 4 / 5, 200, "#22d3ee", Phase.sourceToSlit, some Slit.bottom, some 0⟩

/-- A draw stream whose first sampler call accepts `y = 200` and whose second
sampler call rejects all 100 candidates (each candidate lands on a zero of the
interference density), forcing the fallback. -/
def rndC2 : ℕ → ℝ := fun n => if n = 0 then 1 / 2 else if n = 1 then 0 else 89 / 128

/-- An invalid configuration: `emissionRate = -1` violates the documented
precondition `emissionRate > 0`. -/
def cfgBad : SimulationConfig :=
  { wavelength := 500, slitDistance := 80, observerActive := false,
    emissionRate := -1, showWaves := true }

/-- The phase lifecycle relation of the spec: a phase either stays put or
makes the single `toSlit → toScreen` transition, never the reverse. -/
def PhaseStep (a b : Phase) : Prop :=
  a = b ∨ (a = Phase.sourceToSlit ∧ b = Phase.slitToScreen)

/-! ## Theorems for the density model -/

/-- Claim C3 (code evaluated at the failing input): at the screen center with
`slitDistance = 40` (the slider minimum), `wavelength = 500` and
`observed = true`, the density is `2 · exp (−2/5) ≈ 1.34 > 1`, violating the
documented range `0 ≤ r ≤ 1`. -/
theorem getProbabilityAtY_above_one_at_center :
    1 < getProbabilityAtY 200 40 500 true := by
  unfold getProbabilityAtY
  have h1 : (200 : ℝ) - CANVAS_HEIGHT / 2 = 0 := by norm_num [CANVAS_HEIGHT]
  simp only [h1, if_true]
  have h2 : -((0 : ℝ) - 40 / 2) ^ 2 / 1000 = -(2 / 5) := by norm_num
  have h3 : -((0 : ℝ) + 40 / 2) ^ 2 / 1000 = -(2 / 5) := by norm_num
  have h4 : -((0 : ℝ) * 0) / (2 * 80 * 80) = 0 := by norm_num
  rw [h2, h3, h4, Real.exp_zero, mul_one]
  have hlog : (2 : ℝ) / 5 < Real.log 2 :=
    lt_trans (by norm_num) Real.log_two_gt_d9
  have hexp : Real.exp (2 / 5) < 2 := by
    calc Real.exp (2 / 5) < Real.exp (Real.log 2) := Real.exp_lt_exp.2 hlog
    _ = 2 := Real.exp_log (by norm_num)
  have hpos : (0 : ℝ) < Real.exp (2 / 5) := Real.exp_pos _
  rw [Real.exp_neg]
  rw [show (Real.exp (2 / 5))⁻¹ + (Real.exp (2 / 5))⁻¹ = 2 / Real.exp (2 / 5) by
    rw [div_eq_mul_inv]; ring]
  rw [lt_div_iff₀ hpos, one_mul]
  exact hexp

/-- Claim C8: with `observed = false` the density is symmetric about the
screen center `CANVAS_HEIGHT / 2`: reflecting the offset Δ leaves it
unchanged, for every slit distance and wavelength. -/
theorem getProbabilityAtY_symmetric :
    ∀ (Δ d lam : ℝ),
      getProbabilityAtY (CANVAS_HEIGHT / 2 + Δ) d lam false =
        getProbabilityAtY (CANVAS_HEIGHT / 2 - Δ) d lam false := by
  intro Δ d lam
  unfold getProbabilityAtY
  simp only [Bool.false_eq_true, if_false]
  have h1 : CANVAS_HEIGHT / 2 + Δ - CANVAS_HEIGHT / 2 = Δ := by ring
  have h2 : CANVAS_HEIGHT / 2 - Δ - CANVAS_HEIGHT / 2 = -Δ := by ring
  rw [h1, h2]
  have h3 : Real.pi * d * -Δ / (lam * L * 0.05) =
      -(Real.pi * d * Δ / (lam * L * 0.05)) := by ring
  have h4 : -(-Δ * -Δ) / (2 * 80 * 80) = -(Δ * Δ) / (2 * 80 * 80) := by ring
  rw [h3, Real.cos_neg, h4]

/-! ## Theorems for the target sampler -/

/-- Behaviour of the bounded rejection loop: with all draws in `[0, 1)`, the
result is in `[0, 400)` and is either an accepted draw scaled to the canvas
height, or the fallback from the uniform window `[175, 225)` around the
midpoint, read from the cursor after `2 · fuel` consumed draws. -/
lemma genGo_spec (cfg : SimulationConfig) (rnd : ℕ → ℝ)
    (h : ∀ n, 0 ≤ rnd n ∧ rnd n < 1) :
    ∀ (fuel k : ℕ),
      0 ≤ (genGo cfg rnd fuel k).1 ∧ (genGo cfg rnd fuel k).1 < 400 ∧
      ((∃ j, (genGo cfg rnd fuel k).1 = rnd j * 400) ∨
        ((genGo cfg rnd fuel k).1 = CANVAS_HEIGHT / 2 + (rnd (k + 2 * fuel) - 0.5) * 50 ∧
          175 ≤ (genGo cfg rnd fuel k).1 ∧ (genGo cfg rnd fuel k).1 < 225)) := by
  intro fuel
  induction fuel with
  | zero =>
    intro k
    obtain ⟨hk0, hk1⟩ := h k
    simp only [genGo, CANVAS_HEIGHT]
    refine ⟨by nlinarith, by nlinarith, Or.inr ⟨by norm_num, by nlinarith, by nlinarith⟩⟩
  | succ fuel ih =>
    intro k
    obtain ⟨hk0, hk1⟩ := h k
    simp only [genGo]
    split_ifs with hacc
    · refine ⟨by simp only [CANVAS_HEIGHT]; nlinarith,
        by simp only [CANVAS_HEIGHT]; nlinarith,
        Or.inl ⟨k, by simp only [CANVAS_HEIGHT]⟩⟩
    · have hidx : k + 2 + 2 * fuel = k + 2 * (fuel + 1) := by ring
      have := ih (k + 2)
      rw [hidx] at this
      exact this

/-- Claim C5: the target sampler always terminates within its 100 bounded
attempts; for every configuration and every draw stream from `[0, 1)` the
result lies in `[0, screenHeight]`, and it is either an accepted
rejection-sample or the fallback drawn from the narrow uniform window
`[175, 225)` centered on the screen midpoint. -/
theorem generateTargetY_terminates_in_range :
    ∀ (cfg : SimulationConfig) (rnd : ℕ → ℝ) (k : ℕ),
      (∀ n, 0 ≤ rnd n ∧ rnd n < 1) →
      0 ≤ (generateTargetY cfg rnd k).1 ∧ (generateTargetY cfg rnd k).1 < 400 ∧
      ((∃ j, (generateTargetY cfg rnd k).1 = rnd j * 400) ∨
        ((generateTargetY cfg rnd k).1 = CANVAS_HEIGHT / 2 + (rnd (k + 200) - 0.5) * 50 ∧
          175 ≤ (generateTargetY cfg rnd k).1 ∧ (generateTargetY cfg rnd k).1 < 225)) := by
  intro cfg rnd k h
  have := genGo_spec cfg rnd h 100 k
  simpa only [generateTargetY, show k + 2 * 100 = k + 200 by ring] using this

/-- Witness for C5 at the default configuration with the constant draw
stream 1/2. -/
theorem generateTargetY_terminates_in_range_witness :
    (∀ n, 0 ≤ rndHalf n ∧ rndHalf n < 1) ∧
    (0 ≤ (generateTargetY cfg0 rndHalf 0).1 ∧ (generateTargetY cfg0 rndHalf 0).1 < 400 ∧
      ((∃ j, (generateTargetY cfg0 rndHalf 0).1 = rndHalf j * 400) ∨
        ((generateTargetY cfg0 rndHalf 0).1 = CANVAS_HEIGHT / 2 + (rndHalf (0 + 200) - 0.5) * 50 ∧
          175 ≤ (generateTargetY cfg0 rndHalf 0).1 ∧ (generateTargetY cfg0 rndHalf 0).1 < 225))) :=
  ⟨fun _ => by norm_num [rndHalf],
    generateTargetY_terminates_in_range cfg0 rndHalf 0 (fun _ => by norm_num [rndHalf])⟩

/-! ## Theorems for the histogram sink -/

/-- Claim C10: every sampled target ordinate lies in `[0, 400)`, hence its
bin index `⌊y / BIN_SIZE⌋` passes the histogram's range check `[0, NUM_BINS)`
and the landing increments its bin rather than being dropped. -/
theorem landing_bin_in_range :
    ∀ (cfg : SimulationConfig) (rnd : ℕ → ℝ) (k : ℕ) (hist : List ℕ),
      (∀ n, 0 ≤ rnd n ∧ rnd n < 1) →
      0 ≤ (generateTargetY cfg rnd k).1 ∧ (generateTargetY cfg rnd k).1 < 400 ∧
      0 ≤ ⌊(generateTargetY cfg rnd k).1 / BIN_SIZE⌋ ∧
      ((⌊(generateTargetY cfg rnd k).1 / BIN_SIZE⌋ : ℤ) : ℝ) < NUM_BINS ∧
      handleParticleLand hist (generateTargetY cfg rnd k).1 =
        hist.set (⌊(generateTargetY cfg rnd k).1 / BIN_SIZE⌋).toNat
          (hist.getD (⌊(generateTargetY cfg rnd k).1 / BIN_SIZE⌋).toNat 0 + 1) := by
  intro cfg rnd k hist h
  obtain ⟨h0, h4, _⟩ := generateTargetY_terminates_in_range cfg rnd k h
  have hb0 : 0 ≤ ⌊(generateTargetY cfg rnd k).1 / BIN_SIZE⌋ :=
    Int.le_floor.2 (by push_cast; exact div_nonneg h0 (by norm_num [BIN_SIZE]))
  have hb1 : ((⌊(generateTargetY cfg rnd k).1 / BIN_SIZE⌋ : ℤ) : ℝ) < NUM_BINS := by
    have hle : ((⌊(generateTargetY cfg rnd k).1 / BIN_SIZE⌋ : ℤ) : ℝ) ≤
        (generateTargetY cfg rnd k).1 / BIN_SIZE := Int.floor_le _
    have hlt : (generateTargetY cfg rnd k).1 / BIN_SIZE < NUM_BINS := by
      rw [BIN_SIZE, NUM_BINS, SCREEN_HEIGHT, BIN_SIZE]
      linarith
    linarith
  refine ⟨h0, h4, hb0, hb1, ?_⟩
  unfold handleParticleLand
  rw [if_pos ⟨hb0, hb1⟩]

/-- Witness for C10 at the default configuration, the constant draw stream
1/2 and the freshly initialized 80-bin histogram. -/
theorem landing_bin_in_range_witness :
    (∀ n, 0 ≤ rndHalf n ∧ rndHalf n < 1) ∧
    (0 ≤ (generateTargetY cfg0 rndHalf 0).1 ∧ (generateTargetY cfg0 rndHalf 0).1 < 400 ∧
      0 ≤ ⌊(generateTargetY cfg0 rndHalf 0).1 / BIN_SIZE⌋ ∧
      ((⌊(generateTargetY cfg0 rndHalf 0).1 / BIN_SIZE⌋ : ℤ) : ℝ) < NUM_BINS ∧
      handleParticleLand (List.replicate 80 0) (generateTargetY cfg0 rndHalf 0).1 =
        (List.replicate 80 0).set (⌊(generateTargetY cfg0 rndHalf 0).1 / BIN_SIZE⌋).toNat
          ((List.replicate 80 0).getD (⌊(generateTargetY cfg0 rndHalf 0).1 / BIN_SIZE⌋).toNat 0 + 1)) :=
  ⟨fun _ => by norm_num [rndHalf],
    landing_bin_in_range cfg0 rndHalf 0 (List.replicate 80 0) (fun _ => by norm_num [rndHalf])⟩

/-! ## Helper lemmas for the kinematics stepper -/

lemma moveParticle_s2s (cfg : SimulationConfig) (p : Particle)
    (hph : p.phase = Phase.slitToScreen) :
    moveParticle cfg p = { p with x := p.x + p.vx, y := p.y + p.vy } := by
  unfold moveParticle
  rw [hph]

lemma moveParticle_src_nocross (cfg : SimulationConfig) (p : Particle)
    (hph : p.phase = Phase.sourceToSlit) (hx : ¬ (p.x + p.vx ≥ SLIT_X)) :
    moveParticle cfg p = { p with x := p.x + p.vx, y := p.y + p.vy } := by
  unfold moveParticle
  rw [hph]
  simp only [if_neg hx]

lemma moveParticle_src_cross (cfg : SimulationConfig) (p : Particle) (s : Slit)
    (hph : p.phase = Phase.sourceToSlit) (hx : p.x + p.vx ≥ SLIT_X)
    (hsl : p.originSlit = some s) :
    moveParticle cfg p = { p with
      x := p.x + p.vx
      y := slitSnapY cfg s
      phase := Phase.slitToScreen
      vy := (p.targetY - slitSnapY cfg s) / ((SCREEN_X - SLIT_X) / p.vx) } := by
  unfold moveParticle
  rw [hph]
  simp only [if_pos hx, hsl]

lemma removeTwin_nil (t : Option ℕ) : removeTwin [] t = [] := by
  cases t <;> rfl

/-- One frame of the update loop on a single-particle store in the
source-to-slit phase: the particle is advanced in place, no event. -/
lemma lone_step_src (cfg : SimulationConfig) (p : Particle)
    (hph : p.phase = Phase.sourceToSlit) :
    updateParticles cfg [p] = ([], some [moveParticle cfg p]) := by
  unfold updateParticles
  show runLoop cfg (0 + 1) [p] [] = _
  simp only [runLoop, List.getElem?_cons_zero, hph, List.set_cons_zero]

/-- One frame on a single slit-to-screen particle that does not yet reach
the screen: advanced in place, no event. -/
lemma lone_step_fly (cfg : SimulationConfig) (p : Particle)
    (hph : p.phase = Phase.slitToScreen) (hx : ¬ (p.x + p.vx ≥ SCREEN_X)) :
    updateParticles cfg [p] = ([], some [moveParticle cfg p]) := by
  have hmv := moveParticle_s2s cfg p hph
  have hx1 : ¬ ((moveParticle cfg p).x ≥ SCREEN_X) := by rw [hmv]; exact hx
  unfold updateParticles
  show runLoop cfg (0 + 1) [p] [] = _
  simp only [runLoop, List.getElem?_cons_zero, hph, if_neg hx1, List.set_cons_zero]

/-- One frame on a single slit-to-screen particle that reaches the screen:
the landing event (subject to the counting rule) is delivered and the
particle is spliced out. -/
lemma lone_step_land (cfg : SimulationConfig) (p : Particle)
    (hph : p.phase = Phase.slitToScreen) (hx : p.x + p.vx ≥ SCREEN_X) :
    updateParticles cfg [p] =
      ((if cfg.observerActive = false then
          (if p.id % 2 = 0 then [p.y + p.vy] else [])
        else [p.y + p.vy]), some []) := by
  have hmv := moveParticle_s2s cfg p hph
  have hx1 : (moveParticle cfg p).x ≥ SCREEN_X := by rw [hmv]; exact hx
  unfold updateParticles
  show runLoop cfg (0 + 1) [p] [] = _
  simp only [runLoop, List.getElem?_cons_zero, hph, if_pos hx1, List.eraseIdx,
    removeTwin_nil, hmv, List.nil_append]
  rw [if_pos hx]

lemma runUpdates_zero (cfg : SimulationConfig) (ps : List Particle) :
    runUpdates cfg 0 ps = ([], some ps) := rfl

lemma runUpdates_succ_of_eq (cfg : SimulationConfig) (n : ℕ) (ps : List Particle)
    (evs : List ℝ) (ps1 : List Particle) (h : updateParticles cfg ps = (evs, some ps1)) :
    runUpdates cfg (n + 1) ps =
      (evs ++ (runUpdates cfg n ps1).1, (runUpdates cfg n ps1).2) := by
  show (match updateParticles cfg ps with
    | (evs, none) => (evs, none)
    | (evs, some ps2) =>
      match runUpdates cfg n ps2 with
      | (evs2, r) => (evs ++ evs2, r)) = _
  rw [h]

lemma runUpdates_succ_crash (cfg : SimulationConfig) (n : ℕ) (ps : List Particle)
    (evs : List ℝ) (h : updateParticles cfg ps = (evs, none)) :
    runUpdates cfg (n + 1) ps = (evs, none) := by
  show (match updateParticles cfg ps with
    | (evs, none) => (evs, none)
    | (evs, some ps2) =>
      match runUpdates cfg n ps2 with
      | (evs2, r) => (evs ++ evs2, r)) = _
  rw [h]

/-- Splitting an iterated run whose first `a` frames do not throw. -/
lemma runUpdates_chain (cfg : SimulationConfig) (a b : ℕ) (ps : List Particle)
    (E : List ℝ) (ps1 : List Particle)
    (h : runUpdates cfg a ps = (E, some ps1)) :
    runUpdates cfg (a + b) ps =
      (E ++ (runUpdates cfg b ps1).1, (runUpdates cfg b ps1).2) := by
  induction a generalizing ps E with
  | zero =>
    simp only [runUpdates, Prod.mk.injEq, Option.some.injEq] at h
    obtain ⟨hE, hps⟩ := h
    subst hE hps
    rw [Nat.zero_add]
    rcases hr : runUpdates cfg b ps with ⟨evs2, r2⟩
    simp
  | succ a ih =>
    have hab : a + 1 + b = (a + b) + 1 := by ring
    rw [hab]
    simp only [runUpdates] at h ⊢
    rcases hm : updateParticles cfg ps with ⟨evs, r⟩
    rw [hm] at h
    cases r with
    | none => simp at h
    | some ps2 =>
      dsimp only at h ⊢
      rcases hru : runUpdates cfg a ps2 with ⟨evs2, r2⟩
      rw [hru] at h
      dsimp only at h
      simp only [Prod.mk.injEq] at h
      obtain ⟨hE, hr2⟩ := h
      subst hr2
      have hc := ih ps2 evs2 hru
      rw [hc]
      dsimp only
      subst hE
      simp [List.append_assoc]

/-- Flight of a lone slit-to-screen particle: starting `4 · (n + 1)` short of
the screen, it lands after exactly `n + 1` frames, the landing ordinate being
the linear extrapolation `y + (n + 1) · vy`, with the counting rule applied
and the store left empty. -/
lemma lone_fly_n (cfg : SimulationConfig) :
    ∀ (n : ℕ) (p : Particle), p.phase = Phase.slitToScreen → p.vx = 4 →
      p.x = SCREEN_X - 4 * ((n : ℝ) + 1) →
      runUpdates cfg (n + 1) [p] =
        ((if cfg.observerActive = false then
            (if p.id % 2 = 0 then [p.y + ((n : ℝ) + 1) * p.vy] else [])
          else [p.y + ((n : ℝ) + 1) * p.vy]), some []) := by
  intro n
  induction n with
  | zero =>
    intro p hph hvx hx
    have hland : p.x + p.vx ≥ SCREEN_X := by rw [hvx, hx]; norm_num
    have h1 := lone_step_land cfg p hph hland
    rw [runUpdates_succ_of_eq cfg 0 [p] _ _ h1, runUpdates_zero]
    dsimp only
    norm_num
  | succ n ih =>
    intro p hph hvx hx
    have h0 : (0 : ℝ) ≤ (n : ℝ) := Nat.cast_nonneg n
    have hnl : ¬ (p.x + p.vx ≥ SCREEN_X) := by
      rw [hvx, hx]; push_cast; intro hcon; linarith
    have h1 := lone_step_fly cfg p hph hnl
    rw [moveParticle_s2s cfg p hph] at h1
    have h2 := ih { p with x := p.x + p.vx, y := p.y + p.vy } hph hvx
      (by show p.x + p.vx = _; rw [hvx, hx]; push_cast; ring)
    rw [runUpdates_succ_of_eq cfg (n + 1) [p] _ _ h1, h2]
    dsimp only
    have hpay : p.y + p.vy + ((n : ℝ) + 1) * p.vy = p.y + (((n : ℕ) + 1 : ℕ) + 1 : ℝ) * p.vy := by
      push_cast; ring
    rw [hpay]
    simp

/-- Flight of a lone source-to-slit particle: starting `4 · (n + 1)` short of
the slit, after exactly `n + 1` frames it sits at the slit, snapped to the
slit center of its origin slit, re-aimed at `targetY`, with no event. -/
lemma lone_approach_n (cfg : SimulationConfig) :
    ∀ (n : ℕ) (p : Particle) (s : Slit), p.phase = Phase.sourceToSlit → p.vx = 4 →
      p.originSlit = some s →
      p.x = SLIT_X - 4 * ((n : ℝ) + 1) →
      runUpdates cfg (n + 1) [p] = ([], some [{ p with
        x := SLIT_X
        y := slitSnapY cfg s
        phase := Phase.slitToScreen
        vy := (p.targetY - slitSnapY cfg s) / ((SCREEN_X - SLIT_X) / 4) }]) := by
  intro n
  induction n with
  | zero =>
    intro p s hph hvx hsl hx
    have hcross : p.x + p.vx ≥ SLIT_X := by rw [hvx, hx]; norm_num
    have h1 := lone_step_src cfg p hph
    rw [moveParticle_src_cross cfg p s hph hcross hsl] at h1
    rw [runUpdates_succ_of_eq cfg 0 [p] _ _ h1, runUpdates_zero]
    dsimp only
    rw [hvx, hx]
    norm_num [Particle.mk.injEq]
  | succ n ih =>
    intro p s hph hvx hsl hx
    have h0 : (0 : ℝ) ≤ (n : ℝ) := Nat.cast_nonneg n
    have hnc : ¬ (p.x + p.vx ≥ SLIT_X) := by
      rw [hvx, hx]; push_cast; intro hcon; linarith
    have h1 := lone_step_src cfg p hph
    rw [moveParticle_src_nocross cfg p hph hnc] at h1
    have h2 := ih { p with x := p.x + p.vx, y := p.y + p.vy } s hph hvx hsl
      (by show p.x + p.vx = _; rw [hvx, hx]; push_cast; ring)
    rw [runUpdates_succ_of_eq cfg (n + 1) [p] _ _ h1, h2]
    dsimp only
    simp

/-! ## Theorems for the kinematics stepper -/

/-- Claim C4: a lone particle spawned at the source (either mode, any
configuration) reaches the screen after 175 frames with its landing ordinate
exactly equal to its `targetY` (real arithmetic; the source's tolerance is
floating-point rounding), the landing event carries that ordinate subject to
the counting rule, and the particle is removed from the store. -/
theorem kinematic_exactness :
    ∀ (cfg : SimulationConfig) (p : Particle) (s : Slit),
      p.phase = Phase.sourceToSlit → p.x = SOURCE_X → p.vx = 4 → p.originSlit = some s →
      runUpdates cfg 175 [p] =
        ((if cfg.observerActive = false then
            (if p.id % 2 = 0 then [p.targetY] else [])
          else [p.targetY]), some []) := by
  intro cfg p s hph hx hvx hsl
  have h1 : runUpdates cfg 50 [p] = ([], some [{ p with
      x := SLIT_X
      y := slitSnapY cfg s
      phase := Phase.slitToScreen
      vy := (p.targetY - slitSnapY cfg s) / ((SCREEN_X - SLIT_X) / 4) }]) :=
    lone_approach_n cfg 49 p s hph hvx hsl (by rw [hx]; norm_num [SOURCE_X, SLIT_X])
  have h2 : runUpdates cfg 125 [{ p with
      x := SLIT_X
      y := slitSnapY cfg s
      phase := Phase.slitToScreen
      vy := (p.targetY - slitSnapY cfg s) / ((SCREEN_X - SLIT_X) / 4) }] =
      ((if cfg.observerActive = false then
          (if p.id % 2 = 0 then
            [slitSnapY cfg s + ((124 : ℕ) + 1 : ℝ) *
              ((p.targetY - slitSnapY cfg s) / ((SCREEN_X - SLIT_X) / 4))]
          else [])
        else [slitSnapY cfg s + ((124 : ℕ) + 1 : ℝ) *
          ((p.targetY - slitSnapY cfg s) / ((SCREEN_X - SLIT_X) / 4))]), some []) :=
    lone_fly_n cfg 124 _ rfl hvx (by show SLIT_X = _; norm_num [SLIT_X, SCREEN_X])
  have hy : slitSnapY cfg s + ((124 : ℕ) + 1 : ℝ) *
      ((p.targetY - slitSnapY cfg s) / ((SCREEN_X - SLIT_X) / 4)) = p.targetY := by
    have h125 : ((SCREEN_X - SLIT_X) / 4 : ℝ) = 125 := by norm_num [SCREEN_X, SLIT_X]
    rw [h125]; push_cast; ring
  rw [hy] at h2
  have hchain := runUpdates_chain cfg 50 125 [p] [] _ h1
  show runUpdates cfg (50 + 125) [p] = _
  rw [hchain, h2]
  simp

/-- Witness for C4: the concrete top-slit particle with `targetY = 200`
under the default configuration lands with event ordinate 200. -/
theorem kinematic_exactness_witness :
    ((⟨0, 50, 200, 4, 0, 200, "#22d3ee", Phase.sourceToSlit, some Slit.top, none⟩ :
        Particle).phase = Phase.sourceToSlit ∧
      (⟨0, 50, 200, 4, 0, 200, "#22d3ee", Phase.sourceToSlit, some Slit.top, none⟩ :
        Particle).x = SOURCE_X ∧
      (⟨0, 50, 200, 4, 0, 200, "#22d3ee", Phase.sourceToSlit, some Slit.top, none⟩ :
        Particle).vx = 4 ∧
      (⟨0, 50, 200, 4, 0, 200, "#22d3ee", Phase.sourceToSlit, some Slit.top, none⟩ :
        Particle).originSlit = some Slit.top) ∧
    runUpdates cfg0 175
      [⟨0, 50, 200, 4, 0, 200, "#22d3ee", Phase.sourceToSlit, some Slit.top, none⟩] =
      ([200], some []) := by
  refine ⟨⟨rfl, rfl, rfl, rfl⟩, ?_⟩
  have := kinematic_exactness cfg0
    ⟨0, 50, 200, 4, 0, 200, "#22d3ee", Phase.sourceToSlit, some Slit.top, none⟩
    Slit.top rfl rfl rfl rfl
  simpa [cfg0] using this

/-! ## Helper lemmas for twin pairs

A twin pair occupies two adjacent slots, even id first; the reverse loop
therefore processes the odd twin first. -/

lemma pair_step_src (cfg : SimulationConfig) (a b : Particle)
    (ha : a.phase = Phase.sourceToSlit) (hb : b.phase = Phase.sourceToSlit) :
    updateParticles cfg [a, b] = ([], some [moveParticle cfg a, moveParticle cfg b]) := by
  unfold updateParticles
  show runLoop cfg ((0 + 1) + 1) [a, b] [] = _
  simp only [runLoop, List.getElem?_cons_succ, List.getElem?_cons_zero, hb,
    List.set_cons_succ, List.set_cons_zero, ha]

lemma pair_step_fly (cfg : SimulationConfig) (a b : Particle)
    (ha : a.phase = Phase.slitToScreen) (hb : b.phase = Phase.slitToScreen)
    (hax : ¬ (a.x + a.vx ≥ SCREEN_X)) (hbx : ¬ (b.x + b.vx ≥ SCREEN_X)) :
    updateParticles cfg [a, b] = ([], some [moveParticle cfg a, moveParticle cfg b]) := by
  have hma := moveParticle_s2s cfg a ha
  have hmb := moveParticle_s2s cfg b hb
  have hax1 : ¬ ((moveParticle cfg a).x ≥ SCREEN_X) := by rw [hma]; exact hax
  have hbx1 : ¬ ((moveParticle cfg b).x ≥ SCREEN_X) := by rw [hmb]; exact hbx
  unfold updateParticles
  show runLoop cfg ((0 + 1) + 1) [a, b] [] = _
  simp only [runLoop, List.getElem?_cons_succ, List.getElem?_cons_zero, ha, hb,
    if_neg hax1, if_neg hbx1, List.set_cons_succ, List.set_cons_zero]

/-- The landing frame of a twin pair in unobserved mode: the odd twin (higher
index) is processed first, lands without producing an event, and its even
twin is spliced out with it; the loop then reads past the emptied array,
which is the JavaScript `TypeError`.  No event is ever delivered. -/
lemma pair_step_land (cfg : SimulationConfig) (a b : Particle)
    (hb : b.phase = Phase.slitToScreen) (hbx : b.x + b.vx ≥ SCREEN_X)
    (hobs : cfg.observerActive = false) (hodd : b.id % 2 ≠ 0)
    (htwin : b.twinId = some a.id) :
    updateParticles cfg [a, b] = ([], none) := by
  have hmb := moveParticle_s2s cfg b hb
  have hbx1 : (moveParticle cfg b).x ≥ SCREEN_X := by rw [hmb]; exact hbx
  unfold updateParticles
  show runLoop cfg ((0 + 1) + 1) [a, b] [] = _
  simp only [runLoop, List.getElem?_cons_succ, List.getElem?_cons_zero, hb,
    if_pos hbx1, hobs, if_neg hodd, htwin, List.eraseIdx, removeTwin, findTwinIdx,
    if_pos rfl, List.getElem?_nil]
  simp

/-- A twin pair in the slit-to-screen phase, flying in lockstep `4 · (n + 1)`
short of the screen, delivers zero landing events: the odd twin lands first
and silently removes the even twin. -/
lemma pair_fly_n (cfg : SimulationConfig) :
    ∀ (n : ℕ) (a b : Particle),
      a.phase = Phase.slitToScreen → b.phase = Phase.slitToScreen →
      a.vx = 4 → b.vx = 4 →
      a.x = SCREEN_X - 4 * ((n : ℝ) + 1) → b.x = SCREEN_X - 4 * ((n : ℝ) + 1) →
      cfg.observerActive = false → b.id % 2 ≠ 0 → b.twinId = some a.id →
      runUpdates cfg (n + 1) [a, b] = ([], none) := by
  intro n
  induction n with
  | zero =>
    intro a b ha hb hav hbv hax hbx hobs hodd htwin
    have hland : b.x + b.vx ≥ SCREEN_X := by rw [hbv, hbx]; norm_num
    exact runUpdates_succ_crash cfg 0 [a, b] []
      (pair_step_land cfg a b hb hland hobs hodd htwin)
  | succ n ih =>
    intro a b ha hb hav hbv hax hbx hobs hodd htwin
    have h0 : (0 : ℝ) ≤ (n : ℝ) := Nat.cast_nonneg n
    have hna : ¬ (a.x + a.vx ≥ SCREEN_X) := by
      rw [hav, hax]; push_cast; intro hcon; linarith
    have hnb : ¬ (b.x + b.vx ≥ SCREEN_X) := by
      rw [hbv, hbx]; push_cast; intro hcon; linarith
    have h1 := pair_step_fly cfg a b ha hb hna hnb
    rw [moveParticle_s2s cfg a ha, moveParticle_s2s cfg b hb] at h1
    have h2 := ih { a with x := a.x + a.vx, y := a.y + a.vy }
      { b with x := b.x + b.vx, y := b.y + b.vy } ha hb hav hbv
      (by show a.x + a.vx = _; rw [hav, hax]; push_cast; ring)
      (by show b.x + b.vx = _; rw [hbv, hbx]; push_cast; ring) hobs hodd htwin
    rw [runUpdates_succ_of_eq cfg (n + 1) [a, b] _ _ h1, h2]
    simp

/-- A twin pair approaching the slits in lockstep transitions together:
after `n + 1` frames both sit at the slit barrier, snapped to their origin
slits and re-aimed at their targets, with no events. -/
lemma pair_approach_n (cfg : SimulationConfig) :
    ∀ (n : ℕ) (a b : Particle) (sa sb : Slit),
      a.phase = Phase.sourceToSlit → b.phase = Phase.sourceToSlit →
      a.vx = 4 → b.vx = 4 →
      a.originSlit = some sa → b.originSlit = some sb →
      a.x = SLIT_X - 4 * ((n : ℝ) + 1) → b.x = SLIT_X - 4 * ((n : ℝ) + 1) →
      runUpdates cfg (n + 1) [a, b] = ([], some
        [{ a with
            x := SLIT_X
            y := slitSnapY cfg sa
            phase := Phase.slitToScreen
            vy := (a.targetY - slitSnapY cfg sa) / ((SCREEN_X - SLIT_X) / 4) },
          { b with
            x := SLIT_X
            y := slitSnapY cfg sb
            phase := Phase.slitToScreen
            vy := (b.targetY - slitSnapY cfg sb) / ((SCREEN_X - SLIT_X) / 4) }]) := by
  intro n
  induction n with
  | zero =>
    intro a b sa sb ha hb hav hbv hsa hsb hax hbx
    have hca : a.x + a.vx ≥ SLIT_X := by rw [hav, hax]; norm_num
    have hcb : b.x + b.vx ≥ SLIT_X := by rw [hbv, hbx]; norm_num
    have h1 := pair_step_src cfg a b ha hb
    rw [moveParticle_src_cross cfg a sa ha hca hsa,
      moveParticle_src_cross cfg b sb hb hcb hsb] at h1
    rw [runUpdates_succ_of_eq cfg 0 [a, b] _ _ h1, runUpdates_zero]
    dsimp only
    rw [hav, hbv, hax, hbx]
    norm_num [Particle.mk.injEq]
  | succ n ih =>
    intro a b sa sb ha hb hav hbv hsa hsb hax hbx
    have h0 : (0 : ℝ) ≤ (n : ℝ) := Nat.cast_nonneg n
    have hna : ¬ (a.x + a.vx ≥ SLIT_X) := by
      rw [hav, hax]; push_cast; intro hcon; linarith
    have hnb : ¬ (b.x + b.vx ≥ SLIT_X) := by
      rw [hbv, hbx]; push_cast; intro hcon; linarith
    have h1 := pair_step_src cfg a b ha hb
    rw [moveParticle_src_nocross cfg a ha hna,
      moveParticle_src_nocross cfg b hb hnb] at h1
    have h2 := ih { a with x := a.x + a.vx, y := a.y + a.vy }
      { b with x := b.x + b.vx, y := b.y + b.vy } sa sb ha hb hav hbv hsa hsb
      (by show a.x + a.vx = _; rw [hav, hax]; push_cast; ring)
      (by show b.x + b.vx = _; rw [hbv, hbx]; push_cast; ring)
    rw [runUpdates_succ_of_eq cfg (n + 1) [a, b] _ _ h1, h2]
    simp

/-! ## Evaluation of the spawn path under the default configuration -/

/-- At the screen center the unobserved density is exactly 1. -/
lemma prob_center : getProbabilityAtY 200 80 500 false = 1 := by
  unfold getProbabilityAtY
  norm_num [CANVAS_HEIGHT, Real.exp_zero, Real.cos_zero]

/-- With every draw 1/2, the sampler accepts the first candidate `y = 200`
(the density there being 1) and consumes exactly two draws. -/
lemma generateTargetY_rndHalf (cfg : SimulationConfig) (hd : cfg.slitDistance = 80)
    (hw : cfg.wavelength = 500) (ho : cfg.observerActive = false) (k : ℕ) :
    generateTargetY cfg rndHalf k = (200, k + 2) := by
  unfold generateTargetY
  show genGo cfg rndHalf (99 + 1) k = _
  rw [genGo]
  simp only [rndHalf, hd, hw, ho]
  rw [show (1 : ℝ) / 2 * CANVAS_HEIGHT = 200 by norm_num [CANVAS_HEIGHT]]
  rw [prob_center, if_pos (by norm_num : (1 : ℝ) / 2 < 1)]

/-- The first unobserved emission under `cfg0` with the constant stream 1/2:
twin pair with ids 0 and 1, mutually linked, both targeting `y = 200`. -/
lemma spawn_pair (cfg : SimulationConfig) (hd : cfg.slitDistance = 80)
    (hw : cfg.wavelength = 500) (ho : cfg.observerActive = false) :
    spawnParticle true cfg rndHalf 0 0 = ([pTop0, pBot0], 4, 2) := by
  unfold spawnParticle
  simp only [generateTargetY_rndHalf cfg hd hw ho, ho,
    Bool.not_true, Bool.false_eq_true, if_false]
  norm_num [pTop0, pBot0, Particle.mk.injEq, SOURCE_X, SLIT_X, CANVAS_HEIGHT, hd]

/-! ## Theorems on twin accounting -/

/-- Claim C1 (code evaluated at the failing input): under the default
unobserved configuration, one emitted twin pair that flies all the way to
the screen delivers ZERO countable landing events — not one.  The odd twin
is processed first by the reverse loop, does not count, and splices out its
even twin before that twin can land; the loop then reads past the emptied
array (a `TypeError` in the source, the `none` result here). -/
theorem unobserved_pair_zero_events :
    runUpdates cfg0 175 (spawnParticle true cfg0 rndHalf 0 0).1 = ([], none) := by
  rw [spawn_pair cfg0 rfl rfl rfl]
  have h1 : runUpdates cfg0 50 [pTop0, pBot0] = ([], some
      [{ pTop0 with
          x := SLIT_X
          y := slitSnapY cfg0 Slit.top
          phase := Phase.slitToScreen
          vy := (pTop0.targetY - slitSnapY cfg0 Slit.top) / ((SCREEN_X - SLIT_X) / 4) },
        { pBot0 with
          x := SLIT_X
          y := slitSnapY cfg0 Slit.bottom
          phase := Phase.slitToScreen
          vy := (pBot0.targetY - slitSnapY cfg0 Slit.bottom) / ((SCREEN_X - SLIT_X) / 4) }]) :=
    pair_approach_n cfg0 49 pTop0 pBot0 Slit.top Slit.bottom rfl rfl rfl rfl rfl rfl
      (by show (50 : ℝ) = _; norm_num [SLIT_X]) (by show (50 : ℝ) = _; norm_num [SLIT_X])
  have h2 : runUpdates cfg0 125 [{ pTop0 with
      x := SLIT_X
      y := slitSnapY cfg0 Slit.top
      phase := Phase.slitToScreen
      vy := (pTop0.targetY - slitSnapY cfg0 Slit.top) / ((SCREEN_X - SLIT_X) / 4) },
    { pBot0 with
      x := SLIT_X
      y := slitSnapY cfg0 Slit.bottom
      phase := Phase.slitToScreen
      vy := (pBot0.targetY - slitSnapY cfg0 Slit.bottom) / ((SCREEN_X - SLIT_X) / 4) }] =
      ([], none) :=
    pair_fly_n cfg0 124 _ _ rfl rfl rfl rfl
      (by show SLIT_X = _; norm_num [SLIT_X, SCREEN_X])
      (by show SLIT_X = _; norm_num [SLIT_X, SCREEN_X])
      rfl (by norm_num [pBot0]) rfl
  show runUpdates cfg0 (50 + 125) [pTop0, pBot0] = _
  rw [runUpdates_chain cfg0 50 125 _ _ _ h1, h2]
  simp

/-! ## Evaluation of the spawn path under the rejection stream `rndC2` -/

/-- `y = 89/128 · 400 = 278.125` lies on a zero of the interference pattern
(`phase = π/2`), so the unobserved density there is 0. -/
lemma prob_zero_at_2225_8 : getProbabilityAtY (89 / 128 * CANVAS_HEIGHT) 80 500 false = 0 := by
  unfold getProbabilityAtY
  have harg : Real.pi * 80 * (89 / 128 * CANVAS_HEIGHT - CANVAS_HEIGHT / 2) /
      (500 * L * 0.05) = Real.pi / 2 := by
    rw [CANVAS_HEIGHT, L, SCREEN_X, SLIT_X]
    norm_num
    ring
  simp only [Bool.false_eq_true, if_false, harg, Real.cos_pi_div_two]
  ring

/-- With every draw from index 2 on equal to `89/128`, every rejection
attempt fails (the candidate density is 0), so the loop falls back to the
midpoint window after consuming all its fuel. -/
lemma genGo_rndC2_fallback (cfg : SimulationConfig) (hd : cfg.slitDistance = 80)
    (hw : cfg.wavelength = 500) (ho : cfg.observerActive = false) :
    ∀ (fuel k : ℕ), 2 ≤ k →
      genGo cfg rndC2 fuel k = (CANVAS_HEIGHT / 2 + (89 / 128 - 0.5) * 50, k + 2 * fuel + 1) := by
  intro fuel
  induction fuel with
  | zero =>
    intro k hk
    have hne0 : k ≠ 0 := by omega
    have hne1 : k ≠ 1 := by omega
    simp only [genGo, rndC2, if_neg hne0, if_neg hne1]
  | succ fuel ih =>
    intro k hk
    have hne0 : k ≠ 0 := by omega
    have hne1 : k ≠ 1 := by omega
    have hne0s : k + 1 ≠ 0 := by omega
    have hne1s : k + 1 ≠ 1 := by omega
    rw [genGo]
    simp only [rndC2, if_neg hne0, if_neg hne1, if_neg hne0s, if_neg hne1s, hd, hw, ho,
      prob_zero_at_2225_8]
    rw [if_neg (by norm_num : ¬ ((89 : ℝ) / 128 < 0))]
    rw [ih (k + 2) (by omega)]
    have : k + 2 + 2 * fuel + 1 = k + 2 * (fuel + 1) + 1 := by ring
    rw [this]

/-- First sampler call under `rndC2`: accepts `y = 200` immediately. -/
lemma generateTargetY_rndC2_first : generateTargetY cfg0 rndC2 0 = (200, 2) := by
  unfold generateTargetY
  show genGo cfg0 rndC2 (99 + 1) 0 = _
  rw [genGo]
  norm_num [rndC2]
  rw [show (1 : ℝ) / 2 * CANVAS_HEIGHT = 200 by norm_num [CANVAS_HEIGHT]]
  rw [show cfg0.slitDistance = (80 : ℝ) from rfl, show cfg0.wavelength = (500 : ℝ) from rfl,
    show cfg0.observerActive = false from rfl, prob_center]
  rw [if_pos (by norm_num : (0 : ℝ) < 1)]

/-- Second sampler call under `rndC2` (cursor 2): exhausts all 100 attempts
and returns the fallback `200 + (89/128 − 1/2) · 50 = 13425/64`. -/
lemma generateTargetY_rndC2_second :
    generateTargetY cfg0 rndC2 2 = (13425 / 64, 203) := by
  unfold generateTargetY
  rw [genGo_rndC2_fallback cfg0 rfl rfl rfl 100 2 (le_refl 2)]
  norm_num [CANVAS_HEIGHT, rndC2]

/-- Claim C2 (code evaluated at the failing input): the two twins of a single
unobserved emission carry DIFFERENT `targetY` values — `generateTargetY` is
called once per twin, not once per pair. -/
theorem twin_targetY_not_shared :
    ((spawnParticle true cfg0 rndC2 0 0).1.map Particle.targetY = [200, 13425 / 64]) ∧
    (200 : ℝ) ≠ 13425 / 64 := by
  constructor
  · unfold spawnParticle
    simp only [show cfg0.observerActive = false from rfl,
      Bool.not_true, Bool.false_eq_true, if_false]
    simp only [generateTargetY_rndC2_first]
    simp only [show ((200 : ℝ), (2 : ℕ)).2 = 2 from rfl, generateTargetY_rndC2_second]
    simp [List.map]
  · norm_num

/-! ## Theorems for the emission gate -/

/-- `spawnParticle` bails out immediately when not running. -/
lemma spawn_not_running (cfg : SimulationConfig) (rnd : ℕ → ℝ) (k idc : ℕ) :
    spawnParticle false cfg rnd k idc = ([], k, idc) := rfl

/-- Claim C6, counterexample: with `running = false` and a large elapsed time,
the gate resets the elapsed-time counter (`lastSpawnTime` becomes the current
timestamp) even though NO emission occurs — the reset is not tied to an
emission. -/
theorem gate_resets_without_emission :
    (emissionGate cfg0 false rndHalf 1000 ⟨0, [], 0, 0⟩).lastSpawnTime = 1000 ∧
    (1000 : ℝ) ≠ (0 : ℝ) ∧
    (emissionGate cfg0 false rndHalf 1000 ⟨0, [], 0, 0⟩).particles = [] ∧
    (emissionGate cfg0 false rndHalf 1000 ⟨0, [], 0, 0⟩).idCounter = 0 := by
  have hc : (1000 : ℝ) - (0 : ℝ) > 1000 / (cfg0.emissionRate * 60) := by
    rw [show cfg0.emissionRate = (5 : ℝ) from rfl]
    norm_num
  have hg : emissionGate cfg0 false rndHalf 1000 ⟨0, [], 0, 0⟩ = ⟨1000, [], 0, 0⟩ := by
    unfold emissionGate
    rw [if_pos hc]
    simp [spawn_not_running]
  rw [hg]
  exact ⟨rfl, by norm_num, rfl, rfl⟩

/-- Claim C6, amended: particles are emitted only when `running` is true and
the elapsed time exceeds `1000 / (emissionRate · 60)`; the elapsed-time
counter is reset exactly when the time check passes — which can happen with
`running = false`, in which case nothing is emitted. -/
theorem emission_gate_spec :
    ∀ (cfg : SimulationConfig) (running : Bool) (rnd : ℕ → ℝ) (ts : ℝ) (s : EngineState),
      ((emissionGate cfg running rnd ts s).idCounter ≠ s.idCounter →
        running = true ∧ ts - s.lastSpawnTime > 1000 / (cfg.emissionRate * 60)) ∧
      (emissionGate cfg running rnd ts s).lastSpawnTime =
        (if ts - s.lastSpawnTime > 1000 / (cfg.emissionRate * 60) then ts else s.lastSpawnTime) ∧
      (running = false → (emissionGate cfg running rnd ts s).particles = s.particles) := by
  intro cfg running rnd ts s
  unfold emissionGate
  split_ifs with hgate
  · refine ⟨?_, rfl, ?_⟩
    · intro hne
      cases running with
      | false => exact absurd (by simp [spawn_not_running]) hne
      | true => exact ⟨rfl, hgate⟩
    · intro hrun
      subst hrun
      simp [spawn_not_running]
  · exact ⟨fun hne => absurd rfl hne, rfl, fun _ => rfl⟩

/-- Witness for the amended C6 theorem at a concrete state. -/
theorem emission_gate_spec_witness :
    ((emissionGate cfg0 true rndHalf 0 ⟨0, [], 0, 0⟩).idCounter ≠
        (⟨0, [], 0, 0⟩ : EngineState).idCounter →
      true = true ∧ (0 : ℝ) - (⟨0, [], 0, 0⟩ : EngineState).lastSpawnTime >
        1000 / (cfg0.emissionRate * 60)) ∧
    (emissionGate cfg0 true rndHalf 0 ⟨0, [], 0, 0⟩).lastSpawnTime =
      (if (0 : ℝ) - (⟨0, [], 0, 0⟩ : EngineState).lastSpawnTime >
          1000 / (cfg0.emissionRate * 60) then (0 : ℝ)
        else (⟨0, [], 0, 0⟩ : EngineState).lastSpawnTime) ∧
    (true = false → (emissionGate cfg0 true rndHalf 0 ⟨0, [], 0, 0⟩).particles =
      (⟨0, [], 0, 0⟩ : EngineState).particles) :=
  emission_gate_spec cfg0 true rndHalf 0 ⟨0, [], 0, 0⟩

/-! ## Theorems on configuration validation -/

/-- Claim C7 (code evaluated at the failing input): with the invalid
configuration `emissionRate = -1`, the engine performs no boundary
validation and signals nothing: the gate threshold is negative, so the very
first frame (zero elapsed time) passes the gate and emits a twin pair, and
the frame completes normally. -/
theorem invalid_config_not_rejected :
    (emissionGate cfgBad true rndHalf 0 ⟨0, [], 0, 0⟩).particles.length = 2 ∧
    (emissionGate cfgBad true rndHalf 0 ⟨0, [], 0, 0⟩).idCounter = 2 ∧
    (loopTick cfgBad true rndHalf 0 ⟨0, [], 0, 0⟩).2.isSome = true := by
  have hc : (0 : ℝ) - (0 : ℝ) > 1000 / (cfgBad.emissionRate * 60) := by
    rw [show cfgBad.emissionRate = (-1 : ℝ) from rfl]
    norm_num
  have hg : emissionGate cfgBad true rndHalf 0 ⟨0, [], 0, 0⟩ = ⟨0, [pTop0, pBot0], 2, 4⟩ := by
    unfold emissionGate
    rw [if_pos hc]
    simp [spawn_pair cfgBad rfl rfl rfl]
  refine ⟨by rw [hg]; rfl, by rw [hg], ?_⟩
  unfold loopTick
  rw [hg]
  have hup := pair_step_src cfgBad pTop0 pBot0 rfl rfl
  show (match updateParticles cfgBad [pTop0, pBot0] with
    | (evs, some ps2) => (evs, some { (⟨0, [pTop0, pBot0], 2, 4⟩ : EngineState) with particles := ps2 })
    | (evs, none) => (evs, none)).2.isSome = true
  rw [hup]
  rfl

/-! ## Lifecycle invariants of the particle store -/

lemma PhaseStep.trans {a b c : Phase} (h1 : PhaseStep a b) (h2 : PhaseStep b c) :
    PhaseStep a c := by
  rcases h1 with h1 | ⟨h1a, h1b⟩
  · rcases h2 with h2 | ⟨h2a, h2b⟩
    · exact Or.inl (h1.trans h2)
    · exact Or.inr ⟨h1.trans h2a, h2b⟩
  · rcases h2 with h2 | ⟨h2a, h2b⟩
    · exact Or.inr ⟨h1a, h2.symm.trans h1b⟩
    · rw [h1b] at h2a; exact absurd h2a (by simp)

/-- In-place mutation preserves identity and target, and moves the phase only
forward. -/
lemma moveParticle_step (cfg : SimulationConfig) (q : Particle) :
    (moveParticle cfg q).id = q.id ∧ (moveParticle cfg q).targetY = q.targetY ∧
      PhaseStep q.phase (moveParticle cfg q).phase := by
  unfold moveParticle
  cases hqp : q.phase with
  | sourceToSlit =>
    dsimp only
    split_ifs with hc
    · exact ⟨rfl, rfl, Or.inr ⟨rfl, rfl⟩⟩
    · exact ⟨rfl, rfl, Or.inl rfl⟩
  | slitToScreen => exact ⟨rfl, rfl, Or.inl rfl⟩
  | landed => exact ⟨rfl, rfl, Or.inl hqp.symm⟩

lemma mem_of_getElemQ {α : Type} :
    ∀ (l : List α) (i : ℕ) (a : α), l[i]? = some a → a ∈ l := by
  intro l
  induction l with
  | nil => intro i a h; simp at h
  | cons x xs ih =>
    intro i a h
    cases i with
    | zero =>
      simp only [List.getElem?_cons_zero, Option.some.injEq] at h
      subst h
      exact List.mem_cons_self x xs
    | succ i =>
      rw [List.getElem?_cons_succ] at h
      exact List.mem_cons_of_mem x (ih i a h)

lemma mem_of_eraseIdx {α : Type} :
    ∀ (l : List α) (i : ℕ) (a : α), a ∈ l.eraseIdx i → a ∈ l := by
  intro l
  induction l with
  | nil => intro i a h; simp [List.eraseIdx] at h
  | cons x xs ih =>
    intro i a h
    cases i with
    | zero =>
      simp only [List.eraseIdx] at h
      exact List.mem_cons_of_mem x h
    | succ i =>
      simp only [List.eraseIdx] at h
      rcases List.mem_cons.1 h with h1 | h2
      · subst h1; exact List.mem_cons_self a xs
      · exact List.mem_cons_of_mem x (ih i a h2)

lemma mem_of_removeTwin (ps : List Particle) (t : Option ℕ) (a : Particle)
    (h : a ∈ removeTwin ps t) : a ∈ ps := by
  cases t with
  | none => exact h
  | some t0 =>
    unfold removeTwin at h
    dsimp only at h
    cases hf : findTwinIdx t0 ps with
    | none => rw [hf] at h; exact h
    | some j => rw [hf] at h; exact mem_of_eraseIdx ps j a h

/-- Any property preserved by the in-place mutation is preserved by a full
pass of the update loop over every surviving particle. -/
lemma runLoop_preserve (cfg : SimulationConfig) (R : Particle → Prop)
    (hR : ∀ p, R p → R (moveParticle cfg p)) :
    ∀ (i : ℕ) (ps : List Particle) (evs evs2 : List ℝ) (ps2 : List Particle),
      (∀ q ∈ ps, R q) → runLoop cfg i ps evs = (evs2, some ps2) →
      ∀ q ∈ ps2, R q := by
  intro i
  induction i with
  | zero =>
    intro ps evs evs2 ps2 hps h
    simp only [runLoop, Prod.mk.injEq, Option.some.injEq] at h
    obtain ⟨-, hps2⟩ := h
    subst hps2
    exact hps
  | succ i ih =>
    intro ps evs evs2 ps2 hps h
    rw [runLoop] at h
    cases hget : ps[i]? with
    | none => rw [hget] at h; simp at h
    | some p =>
      rw [hget] at h
      dsimp only at h
      have hRp : R p := hps p (mem_of_getElemQ ps i p hget)
      cases hph : p.phase with
      | landed =>
        rw [hph] at h
        exact ih ps evs evs2 ps2 hps h
      | sourceToSlit =>
        rw [hph] at h
        refine ih _ evs evs2 ps2 ?_ h
        intro q hq
        rcases List.mem_or_eq_of_mem_set hq with hq1 | hq2
        · exact hps q hq1
        · rw [hq2]; exact hR p hRp
      | slitToScreen =>
        rw [hph] at h
        dsimp only at h
        by_cases hsc : (moveParticle cfg p).x ≥ SCREEN_X
        · rw [if_pos hsc] at h
          refine ih _ _ evs2 ps2 ?_ h
          intro q hq
          exact hps q (mem_of_eraseIdx ps i q (mem_of_removeTwin _ _ q hq))
        · rw [if_neg hsc] at h
          refine ih _ evs evs2 ps2 ?_ h
          intro q hq
          rcases List.mem_or_eq_of_mem_set hq with hq1 | hq2
          · exact hps q hq1
          · rw [hq2]; exact hR p hRp

/-- Claim C9: across one update frame, every surviving particle descends from
a particle of the previous frame with the same `id` and the same (immutable)
`targetY`, and with its phase either unchanged or advanced by the single
`toSlit → toScreen` transition — never reversed, never entering a resting
`landed` state; the spawner only ever creates source-to-slit particles. -/
theorem phase_targetY_invariant :
    (∀ (cfg : SimulationConfig) (ps : List Particle) (evs : List ℝ) (ps2 : List Particle),
      updateParticles cfg ps = (evs, some ps2) →
      ∀ q ∈ ps2, ∃ p ∈ ps, p.id = q.id ∧ p.targetY = q.targetY ∧
        PhaseStep p.phase q.phase) ∧
    (∀ (running : Bool) (cfg : SimulationConfig) (rnd : ℕ → ℝ) (k idc : ℕ),
      ∀ p ∈ (spawnParticle running cfg rnd k idc).1, p.phase = Phase.sourceToSlit) := by
  constructor
  · intro cfg ps evs ps2 h q hq
    refine runLoop_preserve cfg
      (fun q => ∃ p ∈ ps, p.id = q.id ∧ p.targetY = q.targetY ∧ PhaseStep p.phase q.phase)
      ?_ ps.length ps [] evs ps2 ?_ h q hq
    · rintro r ⟨p, hp, hid, hty, hphase⟩
      obtain ⟨hmid, hmty, hmph⟩ := moveParticle_step cfg r
      exact ⟨p, hp, hid.trans hmid.symm, hty.trans hmty.symm, hphase.trans hmph⟩
    · intro r hr
      exact ⟨r, hr, rfl, rfl, Or.inl rfl⟩
  · intro running cfg rnd k idc p hp
    unfold spawnParticle at hp
    split_ifs at hp <;>
      simp only [List.mem_cons, List.mem_singleton, List.not_mem_nil, or_false] at hp <;>
      first
        | (rcases hp with hp | hp <;> (subst hp; rfl))
        | (subst hp; rfl)

/-- Witness for C9: one frame on the concrete particle `pTop0`. -/
theorem phase_targetY_invariant_witness :
    updateParticles cfg0 [pTop0] =
      ([], some [⟨0, 54, 996 / 5, 4, -(4 / 5), 200, "#22d3ee",
        Phase.sourceToSlit, some Slit.top, some 1⟩]) ∧
    (∀ q ∈ [(⟨0, 54, 996 / 5, 4, -(4 / 5), 200, "#22d3ee",
        Phase.sourceToSlit, some Slit.top, some 1⟩ : Particle)],
      ∃ p ∈ [pTop0], p.id = q.id ∧ p.targetY = q.targetY ∧ PhaseStep p.phase q.phase) := by
  have h1 : updateParticles cfg0 [pTop0] =
      ([], some [⟨0, 54, 996 / 5, 4, -(4 / 5), 200, "#22d3ee",
        Phase.sourceToSlit, some Slit.top, some 1⟩]) := by
    rw [lone_step_src cfg0 pTop0 rfl,
      moveParticle_src_nocross cfg0 pTop0 rfl (by norm_num [pTop0, SLIT_X])]
    norm_num [pTop0, Particle.mk.injEq]
  exact ⟨h1, phase_targetY_invariant.1 cfg0 [pTop0] [] _ h1⟩

end

end DuplaFenda
